import Mathlib

/-!
Verification of the Kinetic-Tilt gameplay core.

Shallow embedding of the deterministic gameplay modules:
  * `GravityController` (src/core/GravityController.ts)
  * `GameStateManager`  (src/core/GameStateManager.ts)
  * `CollisionDetector` (src/core/CollisionDetector.ts)
  * `GoalSystem`        (src/core/GoalSystem.ts)

JavaScript numbers are modelled as rationals (ℚ); `Math.floor` is `Int.floor`,
which agrees with JS `Math.floor` on all finite inputs.  Rendering-only data
(meshes, animation seeds, console logging, localStorage persistence) carries no
gameplay state and is omitted; `Math.random()` calls are modelled by passing the
sampled values in explicitly, which makes every operation a pure function.
-/

namespace KineticTilt

/-- The (x, y, z) components of a `THREE.Vector3`. -/
structure Vec3 where
  x : ℚ
  y : ℚ
  z : ℚ
deriving DecidableEq, Repr

/-- `THREE.MathUtils.clamp(value, min, max) = Math.max(min, Math.min(max, value))`. -/
def clamp (value lo hi : ℚ) : ℚ := max lo (min hi value)

/-- Componentwise `THREE.Vector3.lerp(v, alpha)`: `this += (v - this) * alpha`. -/
def Vec3.lerp (a b : Vec3) (alpha : ℚ) : Vec3 :=
  ⟨a.x + (b.x - a.x) * alpha, a.y + (b.y - a.y) * alpha, a.z + (b.z - a.z) * alpha⟩

/-- Squared Euclidean magnitude of a vector. -/
def Vec3.magSq (v : Vec3) : ℚ := v.x * v.x + v.y * v.y + v.z * v.z

/-- Squared Euclidean distance between two vectors. -/
def Vec3.distSq (a b : Vec3) : ℚ :=
  (a.x - b.x) * (a.x - b.x) + (a.y - b.y) * (a.y - b.y) + (a.z - b.z) * (a.z - b.z)

/-- State of `GravityController` (src/core/GravityController.ts). -/
structure GravityController where
  smoothingFactor : ℚ
  currentVector : Vec3
  targetVector : Vec3
  lastBeta : ℚ
  lastGamma : ℚ
deriving DecidableEq, Repr

namespace GravityController

def MAX_TILT_ANGLE : ℚ := 45

def MAX_BETA_SAFE : ℚ := 80

def GRAVITY_MULTIPLIER : ℚ := 3 / 2

def DEADZONE : ℚ := 2

/-- The constructor: zero vectors, default smoothing factor 0.15. -/
def init : GravityController :=
  { smoothingFactor := 3 / 20
    currentVector := ⟨0, 0, 0⟩
    targetVector := ⟨0, 0, 0⟩
    lastBeta := 0
    lastGamma := 0 }

/-- `update(beta, gamma)`: deadzone filter, gimbal-lock clamp on beta,
normalization of both axes into [-1, 1], and mapping to the target vector
(`+beta -> -z`).  The `console.warn` at |beta| > 85 is log-only. -/
def update (c : GravityController) (beta gamma : ℚ) : GravityController :=
  let beta := if |beta| < DEADZONE then 0 else beta
  let gamma := if |gamma| < DEADZONE then 0 else gamma
  let betaClamped := clamp beta (-MAX_BETA_SAFE) MAX_BETA_SAFE
  let xIntensity := clamp (gamma / MAX_TILT_ANGLE) (-1) 1
  let zIntensity := clamp (betaClamped / MAX_TILT_ANGLE) (-1) 1
  { c with
    lastBeta := beta
    lastGamma := gamma
    targetVector :=
      ⟨xIntensity * GRAVITY_MULTIPLIER, 0, -zIntensity * GRAVITY_MULTIPLIER⟩ }

/-- `getGravityVector()`: lerps the current vector toward the target by the
smoothing factor, stores it, and returns it. -/
def getGravityVector (c : GravityController) : GravityController × Vec3 :=
  let cur := c.currentVector.lerp c.targetVector c.smoothingFactor
  ({ c with currentVector := cur }, cur)

/-- `reset()`. -/
def reset (c : GravityController) : GravityController :=
  { c with
    currentVector := ⟨0, 0, 0⟩
    targetVector := ⟨0, 0, 0⟩
    lastBeta := 0
    lastGamma := 0 }

/-- `setSmoothing(factor)`. -/
def setSmoothing (c : GravityController) (factor : ℚ) : GravityController :=
  { c with smoothingFactor := factor }

end GravityController

/-- An externally observable operation on a `GravityController`:
an `update(beta, gamma)` call or a `getGravityVector()` read. -/
inductive GCOp where
  | upd (beta gamma : ℚ)
  | read
deriving Repr

/-- Run a sequence of update/read operations. -/
def runOps (c : GravityController) : List GCOp → GravityController
  | [] => c
  | GCOp.upd b g :: rest => runOps (c.update b g) rest
  | GCOp.read :: rest => runOps c.getGravityVector.1 rest

namespace GravityController

/-- Both intensity values produced by `update` lie in `[-1, 1]`. -/
lemma abs_clamp_le_one (v : ℚ) : |clamp v (-1) 1| ≤ 1 := by
  rw [abs_le]
  exact ⟨le_max_left _ _, max_le (by norm_num) (min_le_left _ _)⟩

/-- A lerp with factor in `[0, 1]` stays inside any symmetric bound containing
both endpoints. -/
lemma convex_abs_le {a b s M : ℚ} (hs0 : 0 ≤ s) (hs1 : s ≤ 1)
    (ha : |a| ≤ M) (hb : |b| ≤ M) : |a + (b - a) * s| ≤ M := by
  have h : a + (b - a) * s = (1 - s) * a + s * b := by ring
  rw [h]
  calc |(1 - s) * a + s * b| ≤ |(1 - s) * a| + |s * b| := abs_add _ _
    _ = (1 - s) * |a| + s * |b| := by
        rw [abs_mul, abs_mul, abs_of_nonneg (by linarith), abs_of_nonneg hs0]
    _ ≤ (1 - s) * M + s * M := by
        have h1 := mul_le_mul_of_nonneg_left ha (by linarith : (0:ℚ) ≤ 1 - s)
        have h2 := mul_le_mul_of_nonneg_left hb hs0
        linarith
    _ = M := by ring

/-- A gravity vector confined to the per-axis box of the controller. -/
def InBox (v : Vec3) : Prop :=
  |v.x| ≤ GRAVITY_MULTIPLIER ∧ v.y = 0 ∧ |v.z| ≤ GRAVITY_MULTIPLIER

/-- Inductive invariant of the controller state reachable from `init` by
`update`/`getGravityVector` calls. -/
def GoodState (c : GravityController) : Prop :=
  0 ≤ c.smoothingFactor ∧ c.smoothingFactor ≤ 1 ∧
  InBox c.currentVector ∧ InBox c.targetVector

lemma goodState_init : GoodState init := by
  refine ⟨by norm_num [init], by norm_num [init], ?_, ?_⟩ <;>
    simp [init, InBox, GRAVITY_MULTIPLIER] <;> norm_num

lemma goodState_update (c : GravityController) (b g : ℚ) (h : GoodState c) :
    GoodState (c.update b g) := by
  obtain ⟨h0, h1, hcur, _⟩ := h
  refine ⟨h0, h1, hcur, ?_, rfl, ?_⟩
  · show |clamp _ (-1) 1 * GRAVITY_MULTIPLIER| ≤ GRAVITY_MULTIPLIER
    rw [abs_mul]
    calc |clamp _ (-1) 1| * |GRAVITY_MULTIPLIER| ≤ 1 * |GRAVITY_MULTIPLIER| :=
          mul_le_mul_of_nonneg_right (abs_clamp_le_one _) (abs_nonneg _)
      _ = GRAVITY_MULTIPLIER := by norm_num [GRAVITY_MULTIPLIER]
  · show |-(clamp _ (-1) 1) * GRAVITY_MULTIPLIER| ≤ GRAVITY_MULTIPLIER
    rw [abs_mul, abs_neg]
    calc |clamp _ (-1) 1| * |GRAVITY_MULTIPLIER| ≤ 1 * |GRAVITY_MULTIPLIER| :=
          mul_le_mul_of_nonneg_right (abs_clamp_le_one _) (abs_nonneg _)
      _ = GRAVITY_MULTIPLIER := by norm_num [GRAVITY_MULTIPLIER]

lemma goodState_read (c : GravityController) (h : GoodState c) :
    GoodState c.getGravityVector.1 := by
  obtain ⟨h0, h1, ⟨hcx, hcy, hcz⟩, ⟨htx, hty, htz⟩⟩ := h
  refine ⟨h0, h1, ⟨?_, ?_, ?_⟩, htx, hty, htz⟩
  · exact convex_abs_le h0 h1 hcx htx
  · show c.currentVector.y + (c.targetVector.y - c.currentVector.y) *
        c.smoothingFactor = 0
    rw [hcy, hty]; ring
  · exact convex_abs_le h0 h1 hcz htz

lemma goodState_runOps (c : GravityController) (ops : List GCOp)
    (h : GoodState c) : GoodState (runOps c ops) := by
  induction ops generalizing c with
  | nil => exact h
  | cons op rest ih =>
    cases op with
    | upd b g => exact ih _ (goodState_update c b g h)
    | read => exact ih _ (goodState_read c h)

lemma inBox_magSq {v : Vec3} (h : InBox v) :
    v.magSq ≤ 2 * (GRAVITY_MULTIPLIER * GRAVITY_MULTIPLIER) := by
  obtain ⟨hx, hy, hz⟩ := h
  rw [abs_le] at hx hz
  simp only [Vec3.magSq, hy]
  nlinarith [hx.1, hx.2, hz.1, hz.2]

end GravityController

/-- C1 — corrected.  The original claim (Euclidean magnitude of both the
returned vector and the internal target never exceeds GRAVITY_MULTIPLIER = 1.5)
is false: `update(45, 45)` sets the target to (1.5, 0, -1.5), whose squared
magnitude 4.5 exceeds 1.5² = 2.25.  This counterexample exhibits the violating
trace from the initial state. -/
theorem C1_counterexample :
    GravityController.GRAVITY_MULTIPLIER * GravityController.GRAVITY_MULTIPLIER <
      (runOps GravityController.init [GCOp.upd 45 45]).targetVector.magSq := by
  norm_num [runOps, GravityController.init, GravityController.update, clamp,
    Vec3.magSq, GravityController.GRAVITY_MULTIPLIER,
    GravityController.MAX_TILT_ANGLE, GravityController.MAX_BETA_SAFE,
    GravityController.DEADZONE]

/-- C1 (amended): along every sequence of `update`/`getGravityVector` calls
from the initial state, each axis component of the target vector and of the
returned (current) vector is bounded by GRAVITY_MULTIPLIER in absolute value,
so both vectors' Euclidean magnitudes are bounded by √2·GRAVITY_MULTIPLIER
(equivalently, squared magnitude ≤ 2·GRAVITY_MULTIPLIER²). -/
theorem C1_gravity_bounded (ops : List GCOp) :
    |(runOps GravityController.init ops).targetVector.x| ≤
        GravityController.GRAVITY_MULTIPLIER ∧
    |(runOps GravityController.init ops).targetVector.z| ≤
        GravityController.GRAVITY_MULTIPLIER ∧
    |(runOps GravityController.init ops).currentVector.x| ≤
        GravityController.GRAVITY_MULTIPLIER ∧
    |(runOps GravityController.init ops).currentVector.z| ≤
        GravityController.GRAVITY_MULTIPLIER ∧
    (runOps GravityController.init ops).targetVector.magSq ≤
        2 * (GravityController.GRAVITY_MULTIPLIER *
          GravityController.GRAVITY_MULTIPLIER) ∧
    (runOps GravityController.init ops).currentVector.magSq ≤
        2 * (GravityController.GRAVITY_MULTIPLIER *
          GravityController.GRAVITY_MULTIPLIER) := by
  have h := GravityController.goodState_runOps GravityController.init ops
    GravityController.goodState_init
  obtain ⟨_, _, hcur, htgt⟩ := h
  exact ⟨htgt.1, htgt.2.2, hcur.1, hcur.2.2,
    GravityController.inBox_magSq htgt, GravityController.inBox_magSq hcur⟩

/-- C3: with smoothing 1.0, `update(0, 45)` followed by `getGravityVector()`
returns x = GRAVITY_MULTIPLIER = 1.5, and `update(45, 0)` returns
z = -1.5; in particular x is nowhere near the 9.8 reference value the spec and
the repository's own test suite assert (49/5 = 9.8; |9.8 - 1.5| ≥ 1/2). -/
theorem C3_reference_scale_eval :
    ((GravityController.init.setSmoothing 1).update 0 45).getGravityVector.2.x =
        GravityController.GRAVITY_MULTIPLIER ∧
    ((GravityController.init.setSmoothing 1).update 45 0).getGravityVector.2.z =
        -GravityController.GRAVITY_MULTIPLIER ∧
    ¬ |(49 : ℚ) / 5 -
        ((GravityController.init.setSmoothing 1).update 0 45).getGravityVector.2.x| <
          1 / 2 := by
  refine ⟨?_, ?_, ?_⟩ <;>
    norm_num [GravityController.init, GravityController.update, clamp,
      GravityController.getGravityVector, GravityController.setSmoothing,
      Vec3.lerp, GravityController.GRAVITY_MULTIPLIER,
      GravityController.MAX_TILT_ANGLE, GravityController.MAX_BETA_SAFE,
      GravityController.DEADZONE]
  rw [abs_of_nonneg (by norm_num : (0:ℚ) ≤ 83 / 10)]
  norm_num

namespace GravityController

/-- The controller state after `n` consecutive `getGravityVector()` reads with
no intervening `update` calls. -/
def readIter (c : GravityController) : ℕ → GravityController
  | 0 => c
  | n + 1 => (readIter c n).getGravityVector.1

lemma readIter_target (c : GravityController) (n : ℕ) :
    (readIter c n).targetVector = c.targetVector := by
  induction n with
  | zero => rfl
  | succ n ih => simpa [readIter, getGravityVector] using ih

lemma readIter_smoothing (c : GravityController) (n : ℕ) :
    (readIter c n).smoothingFactor = c.smoothingFactor := by
  induction n with
  | zero => rfl
  | succ n ih => simpa [readIter, getGravityVector] using ih

/-- Closed form of the per-component error after `n` reads: the distance to
the target shrinks by a factor `1 - smoothingFactor` at each read. -/
lemma readIter_delta (c : GravityController) (f : Vec3 → ℚ)
    (hf : ∀ a b s, f (a.lerp b s) = f a + (f b - f a) * s) (n : ℕ) :
    f c.targetVector - f (readIter c n).currentVector =
      (1 - c.smoothingFactor) ^ n *
        (f c.targetVector - f c.currentVector) := by
  induction n with
  | zero => simp [readIter]
  | succ n ih =>
    have ht := readIter_target c n
    have hs := readIter_smoothing c n
    show f c.targetVector -
        f ((readIter c n).currentVector.lerp (readIter c n).targetVector
          (readIter c n).smoothingFactor) = _
    rw [hf, ht, hs]
    have h : f c.targetVector -
        (f (readIter c n).currentVector +
          (f c.targetVector - f (readIter c n).currentVector) *
            c.smoothingFactor) =
        (1 - c.smoothingFactor) *
          (f c.targetVector - f (readIter c n).currentVector) := by ring
    rw [h, ih, pow_succ]; ring

/-- Closed form of the squared distance to the target after `n` reads. -/
lemma readIter_distSq (c : GravityController) (n : ℕ) :
    Vec3.distSq (readIter c n).currentVector c.targetVector =
      ((1 - c.smoothingFactor) ^ 2) ^ n *
        Vec3.distSq c.currentVector c.targetVector := by
  have hx := readIter_delta c (fun v => v.x) (fun _ _ _ => rfl) n
  have hy := readIter_delta c (fun v => v.y) (fun _ _ _ => rfl) n
  have hz := readIter_delta c (fun v => v.z) (fun _ _ _ => rfl) n
  simp only at hx hy hz
  simp only [Vec3.distSq]
  rw [← pow_mul, Nat.mul_comm 2 n, pow_mul]
  set p := (1 - c.smoothingFactor) ^ n with hp
  linear_combination
    (c.targetVector.x - (readIter c n).currentVector.x +
      p * (c.targetVector.x - c.currentVector.x)) * hx +
    (c.targetVector.y - (readIter c n).currentVector.y +
      p * (c.targetVector.y - c.currentVector.y)) * hy +
    (c.targetVector.z - (readIter c n).currentVector.z +
      p * (c.targetVector.z - c.currentVector.z)) * hz

end GravityController

/-- Squared distance is a sum of squares, hence nonnegative. -/
lemma Vec3.distSq_nonneg (a b : Vec3) : 0 ≤ a.distSq b := by
  simp only [Vec3.distSq]
  nlinarith [mul_self_nonneg (a.x - b.x), mul_self_nonneg (a.y - b.y),
    mul_self_nonneg (a.z - b.z)]

/-- C9: for every smoothing factor strictly between 0 and 1 and fixed target
(no intervening `update`), the squared distance of the returned vector to the
target is monotonically non-increasing, converges to 0 (below any positive ε
from some read onward), and no component ever moves past the target: the
residual `target - current` keeps its initial sign and never grows on any
axis. -/
theorem C9_smoothing_convergence (c : GravityController)
    (h0 : 0 < c.smoothingFactor) (h1 : c.smoothingFactor < 1) :
    (∀ n : ℕ,
      Vec3.distSq (GravityController.readIter c (n + 1)).currentVector
          c.targetVector ≤
        Vec3.distSq (GravityController.readIter c n).currentVector
          c.targetVector) ∧
    (∀ ε : ℚ, 0 < ε → ∃ N : ℕ, ∀ n, N ≤ n →
      Vec3.distSq (GravityController.readIter c n).currentVector
          c.targetVector ≤ ε) ∧
    (∀ n : ℕ,
      0 ≤ (c.targetVector.x -
            (GravityController.readIter c n).currentVector.x) *
          (c.targetVector.x - c.currentVector.x) ∧
      |c.targetVector.x - (GravityController.readIter c n).currentVector.x| ≤
        |c.targetVector.x - c.currentVector.x| ∧
      0 ≤ (c.targetVector.y -
            (GravityController.readIter c n).currentVector.y) *
          (c.targetVector.y - c.currentVector.y) ∧
      |c.targetVector.y - (GravityController.readIter c n).currentVector.y| ≤
        |c.targetVector.y - c.currentVector.y| ∧
      0 ≤ (c.targetVector.z -
            (GravityController.readIter c n).currentVector.z) *
          (c.targetVector.z - c.currentVector.z) ∧
      |c.targetVector.z - (GravityController.readIter c n).currentVector.z| ≤
        |c.targetVector.z - c.currentVector.z|) := by
  have hq0 : (0 : ℚ) ≤ 1 - c.smoothingFactor := by linarith
  have hq1 : 1 - c.smoothingFactor ≤ 1 := by linarith
  have hq2nn : (0 : ℚ) ≤ (1 - c.smoothingFactor) ^ 2 := sq_nonneg _
  have hq2le1 : (1 - c.smoothingFactor) ^ 2 ≤ 1 := pow_le_one₀ hq0 hq1
  have hDnn : 0 ≤ Vec3.distSq c.currentVector c.targetVector :=
    Vec3.distSq_nonneg _ _
  refine ⟨?_, ?_, ?_⟩
  · intro n
    rw [GravityController.readIter_distSq, GravityController.readIter_distSq]
    exact mul_le_mul_of_nonneg_right
      (pow_le_pow_of_le_one hq2nn hq2le1 (Nat.le_succ n)) hDnn
  · intro ε hε
    rcases eq_or_lt_of_le hDnn with hD0 | hDpos
    · refine ⟨0, fun n _ => ?_⟩
      rw [GravityController.readIter_distSq, ← hD0, mul_zero]
      exact le_of_lt hε
    · have hq2lt1 : (1 - c.smoothingFactor) ^ 2 < 1 :=
        pow_lt_one₀ hq0 (by linarith) (by norm_num)
      obtain ⟨m, hm⟩ :=
        exists_pow_lt_of_lt_one (div_pos hε hDpos) hq2lt1
      refine ⟨m, fun n hn => ?_⟩
      rw [GravityController.readIter_distSq]
      refine le_of_lt ?_
      calc ((1 - c.smoothingFactor) ^ 2) ^ n *
            Vec3.distSq c.currentVector c.targetVector ≤
            ((1 - c.smoothingFactor) ^ 2) ^ m *
              Vec3.distSq c.currentVector c.targetVector :=
            mul_le_mul_of_nonneg_right
              (pow_le_pow_of_le_one hq2nn hq2le1 hn) hDnn
        _ < ε := (lt_div_iff₀ hDpos).mp hm
  · intro n
    have hx := GravityController.readIter_delta c (fun v => v.x)
      (fun _ _ _ => rfl) n
    have hy := GravityController.readIter_delta c (fun v => v.y)
      (fun _ _ _ => rfl) n
    have hz := GravityController.readIter_delta c (fun v => v.z)
      (fun _ _ _ => rfl) n
    simp only at hx hy hz
    have hpnn : (0 : ℚ) ≤ (1 - c.smoothingFactor) ^ n := pow_nonneg hq0 n
    have hple1 : (1 - c.smoothingFactor) ^ n ≤ 1 := pow_le_one₀ hq0 hq1
    refine ⟨?_, ?_, ?_, ?_, ?_, ?_⟩
    · rw [hx]; nlinarith [sq_nonneg (c.targetVector.x - c.currentVector.x)]
    · rw [hx, abs_mul, abs_of_nonneg hpnn]
      nlinarith [abs_nonneg (c.targetVector.x - c.currentVector.x)]
    · rw [hy]; nlinarith [sq_nonneg (c.targetVector.y - c.currentVector.y)]
    · rw [hy, abs_mul, abs_of_nonneg hpnn]
      nlinarith [abs_nonneg (c.targetVector.y - c.currentVector.y)]
    · rw [hz]; nlinarith [sq_nonneg (c.targetVector.z - c.currentVector.z)]
    · rw [hz, abs_mul, abs_of_nonneg hpnn]
      nlinarith [abs_nonneg (c.targetVector.z - c.currentVector.z)]

/-- A concrete controller used to witness the convergence theorem: smoothing
factor 1/2, current vector (1, 2, 3), target (0, 0, 0). -/
def gc9 : GravityController :=
  { smoothingFactor := 1 / 2
    currentVector := ⟨1, 2, 3⟩
    targetVector := ⟨0, 0, 0⟩
    lastBeta := 0
    lastGamma := 0 }

/-- Witness for C9 at the concrete controller `gc9`. -/
theorem C9_smoothing_convergence_witness :
    0 < gc9.smoothingFactor ∧ gc9.smoothingFactor < 1 ∧
    ((∀ n : ℕ,
      Vec3.distSq (GravityController.readIter gc9 (n + 1)).currentVector
          gc9.targetVector ≤
        Vec3.distSq (GravityController.readIter gc9 n).currentVector
          gc9.targetVector) ∧
    (∀ ε : ℚ, 0 < ε → ∃ N : ℕ, ∀ n, N ≤ n →
      Vec3.distSq (GravityController.readIter gc9 n).currentVector
          gc9.targetVector ≤ ε) ∧
    (∀ n : ℕ,
      0 ≤ (gc9.targetVector.x -
            (GravityController.readIter gc9 n).currentVector.x) *
          (gc9.targetVector.x - gc9.currentVector.x) ∧
      |gc9.targetVector.x -
          (GravityController.readIter gc9 n).currentVector.x| ≤
        |gc9.targetVector.x - gc9.currentVector.x| ∧
      0 ≤ (gc9.targetVector.y -
            (GravityController.readIter gc9 n).currentVector.y) *
          (gc9.targetVector.y - gc9.currentVector.y) ∧
      |gc9.targetVector.y -
          (GravityController.readIter gc9 n).currentVector.y| ≤
        |gc9.targetVector.y - gc9.currentVector.y| ∧
      0 ≤ (gc9.targetVector.z -
            (GravityController.readIter gc9 n).currentVector.z) *
          (gc9.targetVector.z - gc9.currentVector.z) ∧
      |gc9.targetVector.z -
          (GravityController.readIter gc9 n).currentVector.z| ≤
        |gc9.targetVector.z - gc9.currentVector.z|)) :=
  ⟨by norm_num [gc9], by norm_num [gc9],
    C9_smoothing_convergence gc9 (by norm_num [gc9]) (by norm_num [gc9])⟩

/-- C8: both input clamps are saturating — for every controller state,
`update(0, 90)` produces the same target gravity vector as `update(0, 45)`,
and `update(89, 0)` the same as `update(80, 0)`. -/
theorem C8_clamps_saturating (c : GravityController) :
    (c.update 0 90).targetVector = (c.update 0 45).targetVector ∧
    (c.update 89 0).targetVector = (c.update 80 0).targetVector := by
  constructor <;>
    norm_num [GravityController.update, clamp,
      GravityController.GRAVITY_MULTIPLIER, GravityController.MAX_TILT_ANGLE,
      GravityController.MAX_BETA_SAFE, GravityController.DEADZONE]

/-- Game phase (`GameState` enum in src/core/GameStateManager.ts). -/
inductive GState where
  | READY
  | PLAYING
  | PAUSED
  | WIN
  | GAME_OVER
deriving DecidableEq, Repr

/-- State of `GameStateManager` (src/core/GameStateManager.ts).  The score is
an integer (it starts at 0 and only integer amounts are ever added).  Each
method returns the new state together with the list of phases passed to the
registered `onStateChange` callback by that call, in order, assuming a
callback is registered. -/
structure GameStateManager where
  state : GState
  score : ℤ
  highScore : ℤ
  goalsCollected : ℕ
  timeRemaining : ℚ
deriving DecidableEq, Repr

namespace GameStateManager

def GOALS_REQUIRED : ℕ := 10

def TIME_LIMIT : ℚ := 60

def TIME_BONUS_MULTIPLIER : ℚ := 10

/-- `setState(newState)`: no-op when the phase is unchanged; otherwise stores
the new phase and invokes the callback once with it. -/
def setState (m : GameStateManager) (newState : GState) :
    GameStateManager × List GState :=
  if m.state = newState then (m, [])
  else ({ m with state := newState }, [newState])

/-- `reset()`: returns to READY, zeroes score/goals, restores the time limit,
and unconditionally invokes the callback with READY (the assignment to
`this.state` is direct, not via `setState`). -/
def reset (m : GameStateManager) : GameStateManager × List GState :=
  ({ m with
      state := GState.READY
      score := 0
      goalsCollected := 0
      timeRemaining := TIME_LIMIT },
    [GState.READY])

/-- `startGame()`: full reset, then transition to PLAYING. -/
def startGame (m : GameStateManager) : GameStateManager × List GState :=
  let r := reset m
  let s := setState r.1 GState.PLAYING
  (s.1, r.2 ++ s.2)

/-- `handleGameOver()`. -/
def handleGameOver (m : GameStateManager) : GameStateManager × List GState :=
  setState m GState.GAME_OVER

/-- `update(deltaTime)`: no-op unless PLAYING; counts the clock down and, on
reaching 0, clamps to 0 and transitions to GAME_OVER.  (`localStorage` and
`console` effects are omitted.) -/
def update (m : GameStateManager) (deltaTime : ℚ) :
    GameStateManager × List GState :=
  if m.state ≠ GState.PLAYING then (m, [])
  else
    let m := { m with timeRemaining := m.timeRemaining - deltaTime }
    if m.timeRemaining ≤ 0 then
      handleGameOver { m with timeRemaining := 0 }
    else (m, [])

/-- `handleWin()`: adds the final time bonus, updates the high score when
beaten, and transitions to WIN. -/
def handleWin (m : GameStateManager) : GameStateManager × List GState :=
  let timeBonus := ⌊m.timeRemaining * TIME_BONUS_MULTIPLIER⌋
  let m := { m with score := m.score + timeBonus }
  let m := if m.highScore < m.score then { m with highScore := m.score } else m
  setState m GState.WIN

/-- `onGoalCollected()`: no-op unless PLAYING; increments the goal count,
awards `100 + floor(timeRemaining * 2)` points, and, when the goal count has
reached `GOALS_REQUIRED`, runs `handleWin`. -/
def onGoalCollected (m : GameStateManager) : GameStateManager × List GState :=
  if m.state ≠ GState.PLAYING then (m, [])
  else
    let m := { m with goalsCollected := m.goalsCollected + 1 }
    let baseScore : ℤ := 100
    let speedBonus : ℤ := ⌊m.timeRemaining * 2⌋
    let m := { m with score := m.score + (baseScore + speedBonus) }
    if GOALS_REQUIRED ≤ m.goalsCollected then handleWin m else (m, [])

/-- The manager state right after construction with no saved high score:
`loadHighScore` finds nothing and the constructor calls `reset()`. -/
def initGSM : GameStateManager :=
  { state := GState.READY
    score := 0
    highScore := 0
    goalsCollected := 0
    timeRemaining := TIME_LIMIT }

end GameStateManager

/-- An externally observable mutating call on a `GameStateManager` other than
`reset`/`startGame`. -/
inductive GSMOp where
  | update (deltaTime : ℚ)
  | onGoalCollected
deriving Repr

/-- Run a sequence of `update`/`onGoalCollected` calls, accumulating every
callback invocation. -/
def runGSM (m : GameStateManager) : List GSMOp → GameStateManager × List GState
  | [] => (m, [])
  | GSMOp.update dt :: rest =>
    let r := m.update dt
    let s := runGSM r.1 rest
    (s.1, r.2 ++ s.2)
  | GSMOp.onGoalCollected :: rest =>
    let r := m.onGoalCollected
    let s := runGSM r.1 rest
    (s.1, r.2 ++ s.2)

/-- C2: while PLAYING, `onGoalCollected()` increments the goal count by 1 and
adds `100 + floor(timeRemaining*2)` points; the call that brings the count
from 9 to the required 10 additionally adds `floor(timeRemaining*10)` and
transitions to WIN, while earlier calls stay in PLAYING with no bonus. -/
theorem C2_goal_scoring (m : GameStateManager)
    (h : m.state = GState.PLAYING) :
    m.onGoalCollected.1.goalsCollected = m.goalsCollected + 1 ∧
    (m.goalsCollected + 1 < GameStateManager.GOALS_REQUIRED →
      m.onGoalCollected.1.score = m.score + 100 + ⌊m.timeRemaining * 2⌋ ∧
      m.onGoalCollected.1.state = GState.PLAYING) ∧
    (m.goalsCollected = 9 →
      m.onGoalCollected.1.score =
        m.score + 100 + ⌊m.timeRemaining * 2⌋ + ⌊m.timeRemaining * 10⌋ ∧
      m.onGoalCollected.1.state = GState.WIN) := by
  simp only [GameStateManager.onGoalCollected, GameStateManager.handleWin,
    GameStateManager.setState, GameStateManager.TIME_BONUS_MULTIPLIER,
    GameStateManager.GOALS_REQUIRED, h]
  split_ifs <;> simp_all <;> try omega

/-- Witness for C2: a PLAYING state at 9 goals with 30 s left; the tenth goal
awards 100 + 60 + 300 and wins. -/
theorem C2_goal_scoring_witness :
    (⟨GState.PLAYING, 0, 0, 9, 30⟩ : GameStateManager).state =
        GState.PLAYING ∧
    ((⟨GState.PLAYING, 0, 0, 9, 30⟩ :
        GameStateManager).onGoalCollected.1.goalsCollected = 9 + 1 ∧
    (9 + 1 < GameStateManager.GOALS_REQUIRED →
      (⟨GState.PLAYING, 0, 0, 9, 30⟩ :
          GameStateManager).onGoalCollected.1.score =
        0 + 100 + ⌊(30 : ℚ) * 2⌋ ∧
      (⟨GState.PLAYING, 0, 0, 9, 30⟩ :
          GameStateManager).onGoalCollected.1.state = GState.PLAYING) ∧
    (9 = 9 →
      (⟨GState.PLAYING, 0, 0, 9, 30⟩ :
          GameStateManager).onGoalCollected.1.score =
        0 + 100 + ⌊(30 : ℚ) * 2⌋ + ⌊(30 : ℚ) * 10⌋ ∧
      (⟨GState.PLAYING, 0, 0, 9, 30⟩ :
          GameStateManager).onGoalCollected.1.state = GState.WIN)) :=
  ⟨rfl, C2_goal_scoring ⟨GState.PLAYING, 0, 0, 9, 30⟩ rfl⟩

/-- C6: in WIN or GAME_OVER, every `update(deltaTime)` and every
`onGoalCollected()` call — and hence every sequence of such calls — returns
the state entirely unchanged and fires no notification. -/
theorem C6_terminal_states_frozen (m : GameStateManager)
    (h : m.state = GState.WIN ∨ m.state = GState.GAME_OVER) :
    (∀ dt : ℚ, m.update dt = (m, [])) ∧
    m.onGoalCollected = (m, []) ∧
    (∀ ops : List GSMOp, runGSM m ops = (m, [])) := by
  have hne : m.state ≠ GState.PLAYING := by rcases h with h | h <;> simp [h]
  have hu : ∀ dt : ℚ, m.update dt = (m, []) := fun dt => by
    simp [GameStateManager.update, hne]
  have hg : m.onGoalCollected = (m, []) := by
    simp [GameStateManager.onGoalCollected, hne]
  refine ⟨hu, hg, fun ops => ?_⟩
  induction ops with
  | nil => rfl
  | cons op rest ih =>
    cases op with
    | update dt => simp [runGSM, hu dt, ih]
    | onGoalCollected => simp [runGSM, hg, ih]

/-- Witness for C6: a WIN state absorbs a 1-second update, a goal collection,
and a mixed sequence of both. -/
theorem C6_terminal_states_frozen_witness :
    ((⟨GState.WIN, 500, 500, 10, 12⟩ : GameStateManager).state = GState.WIN ∨
      (⟨GState.WIN, 500, 500, 10, 12⟩ : GameStateManager).state =
        GState.GAME_OVER) ∧
    ((∀ dt : ℚ, (⟨GState.WIN, 500, 500, 10, 12⟩ : GameStateManager).update dt =
        (⟨GState.WIN, 500, 500, 10, 12⟩, [])) ∧
    (⟨GState.WIN, 500, 500, 10, 12⟩ : GameStateManager).onGoalCollected =
        (⟨GState.WIN, 500, 500, 10, 12⟩, []) ∧
    (∀ ops : List GSMOp, runGSM (⟨GState.WIN, 500, 500, 10, 12⟩ :
        GameStateManager) ops = (⟨GState.WIN, 500, 500, 10, 12⟩, []))) :=
  ⟨Or.inl rfl,
    C6_terminal_states_frozen ⟨GState.WIN, 500, 500, 10, 12⟩ (Or.inl rfl)⟩

/-- C7 — corrected.  The original claim asserts that an operation leaving the
phase unchanged fires no notification, in particular that `reset()` from READY
is silent; but `reset()` assigns the phase directly and invokes the callback
unconditionally, so resetting an already-READY manager still produces a READY
notification.  Concretely: the freshly constructed manager is READY, and
`reset()` on it notifies [READY]. -/
theorem C7_counterexample :
    GameStateManager.initGSM.state = GState.READY ∧
    GameStateManager.initGSM.reset.2 = [GState.READY] :=
  ⟨rfl, rfl⟩

/-- C7 (amended): `setState` notifies the observer exactly once per actual
phase transition and is a complete no-op when the phase is unchanged; but
`reset()` always fires exactly one READY notification, even when the phase is
already READY. -/
theorem C7_notification_discipline (m : GameStateManager) (s : GState) :
    (m.state = s → m.setState s = (m, [])) ∧
    (m.state ≠ s →
      (m.setState s).2 = [s] ∧ (m.setState s).1.state = s) ∧
    m.reset.2 = [GState.READY] := by
  refine ⟨fun h => ?_, fun h => ?_, rfl⟩
  · simp [GameStateManager.setState, h]
  · simp [GameStateManager.setState, h]

/-- Witness for C7 (amended): on the freshly constructed READY manager, a
`setState` to PLAYING notifies once and stores PLAYING, a `setState` to READY
is a complete no-op, and `reset()` notifies READY. -/
theorem C7_notification_discipline_witness :
    (GameStateManager.initGSM.setState GState.PLAYING).2 =
        [GState.PLAYING] ∧
    (GameStateManager.initGSM.setState GState.PLAYING).1.state =
        GState.PLAYING ∧
    GameStateManager.initGSM.setState GState.READY =
        (GameStateManager.initGSM, []) ∧
    GameStateManager.initGSM.reset.2 = [GState.READY] := by
  have h1 := C7_notification_discipline GameStateManager.initGSM
    GState.PLAYING
  have h2 := C7_notification_discipline GameStateManager.initGSM
    GState.READY
  have hne : GameStateManager.initGSM.state ≠ GState.PLAYING := by
    simp [GameStateManager.initGSM]
  exact ⟨(h1.2.1 hne).1, (h1.2.1 hne).2, h2.1 rfl, h1.2.2⟩

/-- `CollisionDetector.checkGoalEntry` (src/core/CollisionDetector.ts):
squared-distance test on the X-Z plane.  The parameters `heroRadius` and both
Y components appear in the signature but are never read by the body. -/
def checkGoalEntry (heroPos : Vec3) (heroRadius : ℚ) (goalPos : Vec3)
    (goalRadius : ℚ) (threshold : ℚ) : Bool :=
  let dx := heroPos.x - goalPos.x
  let dz := heroPos.z - goalPos.z
  let distSq := dx * dx + dz * dz
  let triggerDistance := goalRadius * threshold
  decide (distSq < triggerDistance * triggerDistance)

/-- A goal-zone record (src/core/GoalSystem.ts).  The `mesh` and the animation
`seed` drive rendering only: the containment test reads `position` (which the
bobbing animation never mutates) and `radius`, so they are omitted. -/
structure Goal where
  position : Vec3
  radius : ℚ
  wasColliding : Bool
deriving DecidableEq, Repr

namespace GoalSystem

def WORLD_SIZE : ℚ := 20

def MIN_EDGE_DIST : ℚ := 3

def GOAL_RADIUS : ℚ := 1

/-- `spawnGoal`: the retry loop breaks on its first iteration, so the goal is
placed at `((r₁-0.5)·spawnRange, 0.5, (r₂-0.5)·spawnRange)` where `r₁, r₂` are
the two `Math.random()` samples (passed in explicitly) and
`spawnRange = WORLD_SIZE - 2·MIN_EDGE_DIST`; the fixed fallback position is
dead code.  A fresh goal starts with `wasColliding = false`. -/
def spawnGoal (rnd : ℚ × ℚ) : Goal :=
  let spawnRange := WORLD_SIZE - MIN_EDGE_DIST * 2
  { position := ⟨(rnd.1 - 1 / 2) * spawnRange, 1 / 2, (rnd.2 - 1 / 2) * spawnRange⟩
    radius := GOAL_RADIUS
    wasColliding := false }

/-- The containment test `GoalSystem.update` runs per goal: hero radius 0.5,
threshold 0.7. -/
def isColliding (heroPosition : Vec3) (g : Goal) : Bool :=
  checkGoalEntry heroPosition (1 / 2) g.position g.radius (7 / 10)

/-- The running `collectedGoalIndex` variable of the forEach loop: visiting
goals in order from index `i`, a goal on a rising edge overwrites the
accumulator with its own index. -/
def collectedIdxAux (heroPosition : Vec3) (i : ℕ) (goals : List Goal)
    (acc : Option ℕ) : Option ℕ :=
  match goals with
  | [] => acc
  | g :: rest =>
    collectedIdxAux heroPosition (i + 1) rest
      (if isColliding heroPosition g && !g.wasColliding then some i else acc)

def collectedGoalIndex (heroPosition : Vec3) (goals : List Goal) : Option ℕ :=
  collectedIdxAux heroPosition 0 goals none

/-- `GoalSystem.update(deltaTime, heroPosition, scene)`: the forEach animates
each mesh (rendering-only), records the last rising-edge index, and refreshes
every goal's `wasColliding` flag; if a goal was collected it is spliced out
and a replacement is spawned within the same call.  Returns the new goal list
and the collected index. -/
def update (deltaTime : ℚ) (heroPosition : Vec3) (rnd : ℚ × ℚ)
    (goals : List Goal) : List Goal × Option ℕ :=
  let collected := collectedGoalIndex heroPosition goals
  let scanned :=
    goals.map fun g => { g with wasColliding := isColliding heroPosition g }
  match collected with
  | none => (scanned, none)
  | some i => (scanned.eraseIdx i ++ [spawnGoal rnd], some i)

/-- The constructor: spawns exactly one goal. -/
def construct (rnd : ℚ × ℚ) : List Goal := [spawnGoal rnd]

/-- `reset(scene)`: removes every goal and spawns one fresh goal. -/
def reset (goals : List Goal) (rnd : ℚ × ℚ) : List Goal := [spawnGoal rnd]

end GoalSystem

/-- An externally observable operation on a `GoalSystem`. -/
inductive GSOp where
  | step (deltaTime : ℚ) (heroPosition : Vec3) (rnd : ℚ × ℚ)
  | resetCall (rnd : ℚ × ℚ)
deriving Repr

def applyGSOp (goals : List Goal) : GSOp → List Goal
  | GSOp.step dt hp rnd => (GoalSystem.update dt hp rnd goals).1
  | GSOp.resetCall rnd => GoalSystem.reset goals rnd

/-- The goal list after construction followed by any sequence of update and
reset calls. -/
def runGoalOps (rnd0 : ℚ × ℚ) (ops : List GSOp) : List Goal :=
  ops.foldl applyGSOp (GoalSystem.construct rnd0)

namespace GoalSystem

/-- Any index the forEach loop reports is either the incoming accumulator or
the position of a rising-edge goal (containment now, flag previously false). -/
lemma collectedIdxAux_spec (hp : Vec3) :
    ∀ (goals : List Goal) (b : ℕ) (acc : Option ℕ) (j : ℕ),
      collectedIdxAux hp b goals acc = some j →
      acc = some j ∨
        ∃ k, ∃ (hk : k < goals.length),
          j = b + k ∧ isColliding hp (goals.get ⟨k, hk⟩) = true ∧
          (goals.get ⟨k, hk⟩).wasColliding = false := by
  intro goals
  induction goals with
  | nil => intro b acc j h; exact Or.inl h
  | cons g rest ih =>
    intro b acc j h
    rcases ih (b + 1) _ j h with hacc | ⟨k, hk, hj, hc, hw⟩
    · by_cases hcond : (isColliding hp g && !g.wasColliding) = true
      · rw [if_pos hcond] at hacc
        have hjb : j = b := by injection hacc.symm
        simp only [Bool.and_eq_true, Bool.not_eq_true'] at hcond
        exact Or.inr ⟨0, Nat.succ_pos _, by omega, hcond.1, hcond.2⟩
      · rw [if_neg hcond] at hacc
        exact Or.inl hacc
    · refine Or.inr ⟨k + 1, Nat.succ_lt_succ hk, by omega, ?_, ?_⟩
      · exact hc
      · exact hw

/-- Any index `update` reports points at a rising-edge goal of the incoming
list; in particular it is in range. -/
lemma update_some_spec (dt : ℚ) (hp : Vec3) (rnd : ℚ × ℚ)
    (goals : List Goal) (i : ℕ)
    (h : (update dt hp rnd goals).2 = some i) :
    ∃ (hlt : i < goals.length),
      isColliding hp (goals.get ⟨i, hlt⟩) = true ∧
      (goals.get ⟨i, hlt⟩).wasColliding = false := by
  have hc : collectedGoalIndex hp goals = some i := by
    unfold update at h
    rcases hidx : collectedGoalIndex hp goals with _ | j <;>
      simp only [hidx] at h
    · exact absurd h (by simp)
    · simpa using h
  rcases collectedIdxAux_spec hp goals 0 none i hc with habs | ⟨k, hk, hj, hcoll, hw⟩
  · exact absurd habs (by simp)
  · have hik : i = k := by omega
    subst hik
    exact ⟨hk, hcoll, hw⟩

/-- `update` preserves the number of goals: the collected goal is removed and
the replacement spawned within the same call. -/
lemma update_length (dt : ℚ) (hp : Vec3) (rnd : ℚ × ℚ) (goals : List Goal) :
    ((update dt hp rnd goals).1).length = goals.length := by
  rcases hidx : (update dt hp rnd goals).2 with _ | i
  · unfold update at hidx ⊢
    rcases hc : collectedGoalIndex hp goals with _ | j <;>
      simp only [hc] at hidx ⊢
    · simp
    · exact absurd hidx (by simp)
  · obtain ⟨hlt, -, -⟩ := update_some_spec dt hp rnd goals i hidx
    unfold update at hidx ⊢
    rcases hc : collectedGoalIndex hp goals with _ | j <;>
      simp only [hc] at hidx ⊢
    · exact absurd hidx (by simp)
    · have hij : j = i := by simpa using hidx
      subst hij
      simp [List.length_eraseIdx, List.length_map, hlt]
      omega

end GoalSystem

/-- C5: exactly one goal is active after construction and after every
sequence of `update`/`reset` calls; moreover a single `update` always returns
exactly as many goals as it received (collection removes one and spawns one in
the same call, so there is no goal-less frame). -/
theorem C5_always_one_goal (rnd0 : ℚ × ℚ) (ops : List GSOp) :
    (runGoalOps rnd0 ops).length = 1 ∧
    ∀ (dt : ℚ) (hp : Vec3) (rnd : ℚ × ℚ) (goals : List Goal),
      ((GoalSystem.update dt hp rnd goals).1).length = goals.length := by
  constructor
  · have haux : ∀ (l : List GSOp) (gs : List Goal), gs.length = 1 →
        (l.foldl applyGSOp gs).length = 1 := by
      intro l
      induction l with
      | nil => intro gs h; exact h
      | cons op rest ih =>
        intro gs h
        cases op with
        | step dt hp rnd =>
          exact ih _ ((GoalSystem.update_length dt hp rnd gs).trans h)
        | resetCall rnd => exact ih _ rfl
    exact haux ops _ rfl
  · exact GoalSystem.update_length

namespace GoalSystem

/-- Single goal, rising edge: the event fires, the goal is removed, and the
replacement is spawned within the same call. -/
lemma update_single_hit (dt : ℚ) (hp : Vec3) (rnd : ℚ × ℚ) (g : Goal)
    (hc : isColliding hp g = true) (hw : g.wasColliding = false) :
    update dt hp rnd [g] = ([spawnGoal rnd], some 0) := by
  simp [update, collectedGoalIndex, collectedIdxAux, hc, hw, List.eraseIdx]

/-- Single goal with the previous-containment flag set: no event fires. -/
lemma update_single_flagged (dt : ℚ) (hp : Vec3) (rnd : ℚ × ℚ) (g : Goal)
    (hw : g.wasColliding = true) :
    update dt hp rnd [g] =
      ([{ g with wasColliding := isColliding hp g }], none) := by
  simp [update, collectedGoalIndex, collectedIdxAux, hw]

/-- Single goal, hero outside: no event, flag cleared. -/
lemma update_single_miss (dt : ℚ) (hp : Vec3) (rnd : ℚ × ℚ) (g : Goal)
    (hc : isColliding hp g = false) :
    update dt hp rnd [g] = ([{ g with wasColliding := false }], none) := by
  simp [update, collectedGoalIndex, collectedIdxAux, hc]

end GoalSystem

/-- `n` consecutive `GoalSystem.update` calls with the hero parked at `hp`,
spawn randomness drawn from the stream `rnds`; returns the final goal list and
the per-call collection results in order. -/
def runCollect (hp : Vec3) (rnds : ℕ → ℚ × ℚ) (goals : List Goal) :
    ℕ → List Goal × List (Option ℕ)
  | 0 => (goals, [])
  | n + 1 =>
    let r := runCollect hp rnds goals n
    let u := GoalSystem.update (1 / 60) hp (rnds n) r.1
    (u.1, r.2 ++ [u.2])

lemma filterMap_id_replicate_none (k : ℕ) :
    (List.replicate k (none : Option ℕ)).filterMap id = [] := by
  induction k with
  | zero => rfl
  | succ k ih => simp [List.replicate_succ, ih]

/-- Closed form of the C4 scenario: starting from one rising-edge goal with
every replacement spawned outside the hero's zone, the state after `n ≥ 1`
steps is the first replacement goal, and the event log is `some 0` followed by
`none`s. -/
lemma runCollect_closed (hp : Vec3) (rnds : ℕ → ℚ × ℚ) (g : Goal)
    (hc : GoalSystem.isColliding hp g = true)
    (hw : g.wasColliding = false)
    (hmiss : ∀ k, GoalSystem.isColliding hp (GoalSystem.spawnGoal (rnds k)) =
      false) :
    ∀ n, 1 ≤ n →
      runCollect hp rnds [g] n =
        ([GoalSystem.spawnGoal (rnds 0)],
          some 0 :: List.replicate (n - 1) none) := by
  intro n hn
  induction n with
  | zero => omega
  | succ n ih =>
    by_cases hn0 : n = 0
    · subst hn0
      simp [runCollect, GoalSystem.update_single_hit _ _ _ _ hc hw]
    · have ih' := ih (by omega)
      show runCollect hp rnds [g] (n + 1) = _
      simp only [runCollect, ih']
      rw [GoalSystem.update_single_miss _ _ _ _ (hmiss 0)]
      refine Prod.ext ?_ ?_
      · simp [GoalSystem.spawnGoal]
      · show (some 0 :: List.replicate (n - 1) none) ++ [none] =
          some 0 :: List.replicate n none
        have hrep : List.replicate (n - 1) (none : Option ℕ) ++ [none] =
            List.replicate n none := by
          rw [← List.replicate_succ']
          congr 1
          omega
        simp [hrep]

/-- C4: collection is edge-triggered.  (a) Starting from a goal whose flag is
clear with the hero inside its zone, across any `N ≥ 1` consecutive `update`
calls (replacements spawning outside the hero's position) exactly one
collection event is returned, on the first call.  (b) A single goal whose
previous-containment flag is set never yields an event.  (c) Any event
`update` returns points at a rising-edge goal: containment holds now and the
previous-containment flag was false. -/
theorem C4_edge_triggered (g : Goal) (hp : Vec3) (rnds : ℕ → ℚ × ℚ)
    (hc : GoalSystem.isColliding hp g = true)
    (hw : g.wasColliding = false)
    (hmiss : ∀ k, GoalSystem.isColliding hp (GoalSystem.spawnGoal (rnds k)) =
      false) :
    (∀ n : ℕ, 1 ≤ n →
      (runCollect hp rnds [g] n).2.filterMap id = [0] ∧
      (runCollect hp rnds [g] n).2.head? = some (some 0)) ∧
    (∀ (dt : ℚ) (hp2 : Vec3) (rnd : ℚ × ℚ) (g2 : Goal),
      g2.wasColliding = true →
      (GoalSystem.update dt hp2 rnd [g2]).2 = none) ∧
    (∀ (dt : ℚ) (hp2 : Vec3) (rnd : ℚ × ℚ) (goals : List Goal) (i : ℕ),
      (GoalSystem.update dt hp2 rnd goals).2 = some i →
      ∃ (hlt : i < goals.length),
        GoalSystem.isColliding hp2 (goals.get ⟨i, hlt⟩) = true ∧
        (goals.get ⟨i, hlt⟩).wasColliding = false) := by
  refine ⟨fun n hn => ?_, fun dt hp2 rnd g2 hw2 => ?_, ?_⟩
  · rw [runCollect_closed hp rnds g hc hw hmiss n hn]
    exact ⟨by simp [filterMap_id_replicate_none], rfl⟩
  · rw [GoalSystem.update_single_flagged dt hp2 rnd g2 hw2]
  · exact fun dt hp2 rnd goals i h =>
      GoalSystem.update_some_spec dt hp2 rnd goals i h

/-- The concrete C4 scenario: a goal at the origin, the hero at the origin
(inside the 0.7-radius trigger zone), replacements spawned at (7, 0.5, 7). -/
def g4 : Goal := ⟨⟨0, 1 / 2, 0⟩, 1, false⟩

def hero4 : Vec3 := ⟨0, 0, 0⟩

def rnds4 : ℕ → ℚ × ℚ := fun _ => (1, 1)

/-- Witness for C4 at the concrete scenario. -/
theorem C4_edge_triggered_witness :
    GoalSystem.isColliding hero4 g4 = true ∧
    g4.wasColliding = false ∧
    (∀ k, GoalSystem.isColliding hero4 (GoalSystem.spawnGoal (rnds4 k)) =
      false) ∧
    ((∀ n : ℕ, 1 ≤ n →
      (runCollect hero4 rnds4 [g4] n).2.filterMap id = [0] ∧
      (runCollect hero4 rnds4 [g4] n).2.head? = some (some 0)) ∧
    (∀ (dt : ℚ) (hp2 : Vec3) (rnd : ℚ × ℚ) (g2 : Goal),
      g2.wasColliding = true →
      (GoalSystem.update dt hp2 rnd [g2]).2 = none) ∧
    (∀ (dt : ℚ) (hp2 : Vec3) (rnd : ℚ × ℚ) (goals : List Goal) (i : ℕ),
      (GoalSystem.update dt hp2 rnd goals).2 = some i →
      ∃ (hlt : i < goals.length),
        GoalSystem.isColliding hp2 (goals.get ⟨i, hlt⟩) = true ∧
        (goals.get ⟨i, hlt⟩).wasColliding = false)) := by
  have hc : GoalSystem.isColliding hero4 g4 = true := by
    norm_num [GoalSystem.isColliding, checkGoalEntry, hero4, g4]
  have hmiss : ∀ k,
      GoalSystem.isColliding hero4 (GoalSystem.spawnGoal (rnds4 k)) = false :=
    fun k => by
      norm_num [GoalSystem.isColliding, checkGoalEntry, GoalSystem.spawnGoal,
        GoalSystem.WORLD_SIZE, GoalSystem.MIN_EDGE_DIST,
        GoalSystem.GOAL_RADIUS, hero4, rnds4]
  exact ⟨hc, rfl, hmiss, C4_edge_triggered g4 hero4 rnds4 hc rfl hmiss⟩

/-- C10: `checkGoalEntry` is insensitive to `heroRadius` and to the Y
components of both positions — calls agreeing on the X and Z components, the
goal radius and the threshold return equal booleans. -/
theorem C10_checkGoalEntry_insensitive (h1 h2 g1 g2 : Vec3) (r1 r2 gr th : ℚ)
    (hx : h1.x = h2.x) (hz : h1.z = h2.z)
    (gx : g1.x = g2.x) (gz : g1.z = g2.z) :
    checkGoalEntry h1 r1 g1 gr th = checkGoalEntry h2 r2 g2 gr th := by
  simp [checkGoalEntry, hx, hz, gx, gz]

/-- Witness for C10: same X/Z geometry, wildly different hero radii and Y
components, equal results. -/
theorem C10_checkGoalEntry_insensitive_witness :
    (⟨1, 99, 2⟩ : Vec3).x = (⟨1, -5, 2⟩ : Vec3).x ∧
    (⟨1, 99, 2⟩ : Vec3).z = (⟨1, -5, 2⟩ : Vec3).z ∧
    (⟨1, 42, 2⟩ : Vec3).x = (⟨1, 0, 2⟩ : Vec3).x ∧
    (⟨1, 42, 2⟩ : Vec3).z = (⟨1, 0, 2⟩ : Vec3).z ∧
    checkGoalEntry ⟨1, 99, 2⟩ 7 ⟨1, 42, 2⟩ 1 (7 / 10) =
      checkGoalEntry ⟨1, -5, 2⟩ (1 / 2) ⟨1, 0, 2⟩ 1 (7 / 10) :=
  ⟨rfl, rfl, rfl, rfl,
    C10_checkGoalEntry_insensitive ⟨1, 99, 2⟩ ⟨1, -5, 2⟩ ⟨1, 42, 2⟩ ⟨1, 0, 2⟩
      7 (1 / 2) 1 (7 / 10) rfl rfl rfl rfl⟩

end KineticTilt
